import Mathlib

/-
Verification development for the demoSinesis document ingestion and
retrieval-augmented question answering application.

The Python sources are shallowly embedded as Lean definitions:

  * `src/config.py`              -> `get_file_extension`, `validate_file`
  * `src/vector_store.py`        -> `enrich_metadata`, `save_to_chroma`
  * `src/rag.py`                 -> `setup_retriever`, `runRetriever`,
                                    `generate_related_questions`, `ask_question`

External collaborators (the Chroma vector store, the BM25 lexical index,
the Ollama generation model and the embedding model) are modelled as
explicit state or as function-valued parameters; Python exceptions are
modelled with `Except String`; Python dictionaries holding chunk metadata
are modelled as a record of optional fields (absent key = `none`).
-/

set_option maxRecDepth 4096

namespace DemoSinesis

/-! ## Python string primitives used by the sources -/

/-- Whitespace characters recognised by Python `str.strip()` (the ASCII ones;
the sources only ever meet ASCII whitespace). -/
def isPySpace (c : Char) : Bool :=
  c == ' ' || c == '\t' || c == '\n' || c == '\x0b' || c == '\x0c' || c == '\r'

/-- Python `s.strip()`: remove leading and trailing whitespace. -/
def pyStrip (s : String) : String :=
  String.mk (((s.toList.dropWhile isPySpace).reverse.dropWhile isPySpace).reverse)

/-- Splits a character list at every occurrence of `sep`, keeping empty
pieces, like Python `s.split(sep)` for a one-character separator. -/
def splitCharAux (sep : Char) : List Char → List Char → List String
  | [], acc => [String.mk acc.reverse]
  | c :: rest, acc =>
      if c == sep then String.mk acc.reverse :: splitCharAux sep rest []
      else splitCharAux sep rest (c :: acc)

/-- Python `s.split(sep)` for a one-character separator. -/
def splitChar (sep : Char) (s : String) : List String :=
  splitCharAux sep s.toList []

/-- Python `s.lower()`. -/
def toLowerStr (s : String) : String :=
  String.mk (s.toList.map Char.toLower)

/-- Final path component, as `pathlib.Path(p).name` (posix separators). -/
def pathName (p : String) : String :=
  (splitChar '/' p).getLastD ""

/-- File extension of the final component, as `pathlib.Path(p).suffix`:
the substring from the last dot, provided that dot is neither the first
nor the last character of the final component; otherwise the empty string. -/
def pathSuffix (p : String) : String :=
  let cs := (pathName p).toList
  match ((cs.enum.filter (fun q => q.2 == '.')).map (fun q => q.1)).getLast? with
  | some i => if 0 < i && i + 1 < cs.length then String.mk (cs.drop i) else ""
  | none => ""

/-! ## Data model

A `Doc` embeds a LangChain `Document`: a chunk of page content together
with a metadata dictionary.  The metadata keys actually read or written by
the sources become optional fields; a field holding `none` models an
absent dictionary key. -/

structure ChunkMetadata where
  source : Option String := none
  documentId : Option String := none
  docId : Option String := none
  batchId : Option String := none
  documentName : Option String := none
  documentType : Option String := none
  chunkNumber : Option Nat := none
  totalChunks : Option Nat := none
  ingestTime : Option String := none
  embeddingModel : Option String := none
  deriving Repr, DecidableEq

/-- The empty metadata dictionary (every key absent). -/
def ChunkMetadata.emptyDict : ChunkMetadata := {}

structure Doc where
  pageContent : String
  metadata : ChunkMetadata := {}
  deriving Repr, DecidableEq

/-! ## src/config.py -/

/-- Embeds `get_file_extension` (src/config.py:20): the lowercased
extension of the file name. -/
def get_file_extension (fileName : String) : String :=
  toLowerStr (pathSuffix fileName)

/-- An uploaded file object, of which `validate_file` reads the attributes
`name` and `size` (size in bytes). -/
structure UploadedFile where
  name : String
  size : Nat
  deriving Repr, DecidableEq

/-- The extensions accepted by `validate_file` (src/config.py:38). -/
def allowed_extensions : List String := [".pdf", ".docx", ".txt", ".csv"]

/-- Embeds `validate_file` (src/config.py:24): checks the file type first,
then the size against `max_size_mb * 1024 * 1024`; a raised `ValueError`
becomes `Except.error`. -/
def validate_file (file : UploadedFile) (maxSizeMb : Nat := 10) : Except String Bool :=
  let ext := get_file_extension file.name
  if ext ∈ allowed_extensions then
    if file.size > maxSizeMb * 1024 * 1024 then
      .error "Archivo demasiado grande."
    else
      .ok true
  else
    .error ("Tipo de archivo no soportado: " ++ ext)

/-! ### Claim C10 -/

/-- C10: for every file object and positive `max_size_mb`, `validate_file`
returns `True` exactly when the lowercased extension of the file name is
one of `.pdf`, `.docx`, `.txt`, `.csv` and the size is at most
`max_size_mb * 1024 * 1024` bytes; in every other case it raises
`ValueError`, and the unsupported-type check is performed before the size
check (an unsupported oversized file reports the type error). -/
theorem c10_validate_file_spec (file : UploadedFile) (maxSizeMb : Nat)
    (_hpos : 0 < maxSizeMb) :
    (validate_file file maxSizeMb = .ok true ↔
      (get_file_extension file.name ∈ allowed_extensions ∧
        file.size ≤ maxSizeMb * 1024 * 1024)) ∧
    (get_file_extension file.name ∉ allowed_extensions →
      validate_file file maxSizeMb =
        .error ("Tipo de archivo no soportado: " ++ get_file_extension file.name)) ∧
    (get_file_extension file.name ∈ allowed_extensions →
      maxSizeMb * 1024 * 1024 < file.size →
      validate_file file maxSizeMb = .error "Archivo demasiado grande.") := by
  unfold validate_file
  refine ⟨?_, ?_, ?_⟩
  · constructor
    · intro h
      by_cases hext : get_file_extension file.name ∈ allowed_extensions
      · rw [if_pos hext] at h
        by_cases hsz : file.size > maxSizeMb * 1024 * 1024
        · rw [if_pos hsz] at h
          exact absurd h (by simp)
        · exact ⟨hext, Nat.le_of_not_lt hsz⟩
      · rw [if_neg hext] at h
        exact absurd h (by simp)
    · rintro ⟨hext, hsz⟩
      rw [if_pos hext, if_neg (Nat.not_lt_of_le hsz)]
  · intro hext
    rw [if_neg hext]
  · intro hext hsz
    rw [if_pos hext, if_pos hsz]

/-- Witness for C10 at a concrete input: a 5-byte `doc.PDF` under the
default 10 MB limit validates. -/
theorem c10_validate_file_spec_witness :
    validate_file { name := "doc.PDF", size := 5 } 10 = .ok true :=
  (c10_validate_file_spec { name := "doc.PDF", size := 5 } 10 (by decide)).1.mpr
    (by refine ⟨?_, ?_⟩ <;> decide)

/-! ## src/vector_store.py

The persisted Chroma collection is modelled as a list of
(entry id, document) pairs.  Entry ids are assigned by Chroma when
documents are added; here they are modelled as the enriched `doc_id`
metadata of each document, the reading most favourable to the duplicate
filter of `save_to_chroma` (the filter compares stored entry ids against
`doc_id` metadata, so any other id assignment makes it trivially
ineffective).  The `uuid.uuid4()` batch identifier and
`datetime.now().isoformat()` timestamp generated inside `save_to_chroma`
become the parameters `batchId` and `now`: distinct calls receive
distinct fresh `batchId` values. -/

structure ChromaStore where
  entries : List (String × Doc) := []
  deriving Repr, DecidableEq

/-- The stored entry ids, as returned by `vectorstore.get()['ids']`. -/
def ChromaStore.ids (s : ChromaStore) : List String :=
  s.entries.map Prod.fst

/-- The number of stored entries, as `_collection.count()`. -/
def ChromaStore.count (s : ChromaStore) : Nat :=
  s.entries.length

/-- Embeds `collection_exists` (src/vector_store.py:55): true when the
persisted collection holds at least one entry. -/
def collection_exists (store : ChromaStore) : Bool :=
  store.count > 0

/-- One pass of the metadata enrichment loop of `save_to_chroma`
(src/vector_store.py:106-119) on the document at position `i` of a batch
of `total` documents: `dict.update` overwrites any previous values of the
touched keys. -/
def enrich_one (batchId documentName documentType now embModelName : String)
    (total i : Nat) (d : Doc) : Doc :=
  { d with metadata := { d.metadata with
      docId := some ("doc_" ++ batchId ++ "_" ++ toString i)
      batchId := some batchId
      documentName := some (if documentName != "" then documentName
        else pathName (d.metadata.source.getD "unknown"))
      documentType := some (if documentType != "" then documentType
        else String.mk ((pathSuffix (d.metadata.source.getD "")).toList.drop 1))
      chunkNumber := some (i + 1)
      totalChunks := some total
      ingestTime := some now
      embeddingModel := some embModelName } }

/-- The enrichment loop `for i, doc in enumerate(docs)` of
`save_to_chroma`, starting at position `i`. -/
def enrich_from (batchId documentName documentType now embModelName : String)
    (total : Nat) : Nat → List Doc → List Doc
  | _, [] => []
  | i, d :: ds =>
      enrich_one batchId documentName documentType now embModelName total i d ::
        enrich_from batchId documentName documentType now embModelName total (i + 1) ds

/-- The full metadata enrichment performed by `save_to_chroma`
(src/vector_store.py:106-119) over a batch. -/
def enrich_metadata (batchId documentName documentType now embModelName : String)
    (docs : List Doc) : List Doc :=
  enrich_from batchId documentName documentType now embModelName docs.length 0 docs

/-- Chroma `from_documents` on the persist directory of an existing
collection, modelled per the source comment (recrear la colección desde
cero, src/vector_store.py:143) and the spec (full recreation of the
collection from the provided chunk set): the resulting collection holds
exactly the provided documents. -/
def chroma_from_documents (docs : List Doc) : ChromaStore :=
  { entries := docs.map (fun d => (d.metadata.docId.getD "", d)) }

/-- Embeds `save_to_chroma` (src/vector_store.py:91-166).  `addFails`
models whether the incremental-write `try` block (fetching existing ids,
filtering, `add_documents`) raises an exception; on failure the `except`
branch recreates the collection from the current batch via
`Chroma.from_documents`. -/
def save_to_chroma (store : ChromaStore) (docs : List Doc)
    (documentName documentType : String) (batchId now embModelName : String)
    (addFails : Bool) : Except String ChromaStore :=
  if docs = [] then
    .error "No hay documentos para guardar"
  else
    let enriched := enrich_metadata batchId documentName documentType now embModelName docs
    if collection_exists store then
      if addFails then
        .ok (chroma_from_documents enriched)
      else
        let existingIds := store.ids
        let newDocs := enriched.filter
          (fun d => !(existingIds.contains (d.metadata.docId.getD "")))
        .ok { entries := store.entries ++ newDocs.map (fun d => (d.metadata.docId.getD "", d)) }
    else
      .ok (chroma_from_documents enriched)

/-! ### Claim C1 -/

/-- A chunk ingested by an earlier batch. -/
def oldChunkC1 : Doc :=
  { pageContent := "contenido antiguo", metadata := { source := some "viejo.txt" } }

/-- A chunk of the current batch. -/
def newChunkC1 : Doc :=
  { pageContent := "contenido nuevo", metadata := { source := some "nuevo.txt" } }

/-- C1 fails on the code: after a successful first batch stores entry
`doc_b0_0`, a second batch whose incremental write fails triggers the
recreation fallback, and the previously stored chunk of the older batch
is no longer in the collection — the fallback does silently drop it. -/
theorem c1_counterexample_fallback_drops_old_batch :
    ((save_to_chroma {} [oldChunkC1] "" "" "b0" "t0" "mini" false).map
        (fun st => st.ids.contains "doc_b0_0") = .ok true) ∧
    (((save_to_chroma {} [oldChunkC1] "" "" "b0" "t0" "mini" false).bind
        (fun s1 => save_to_chroma s1 [newChunkC1] "" "" "b1" "t1" "mini" true)).map
        (fun st => st.ids.contains "doc_b0_0") = .ok false) :=
  ⟨rfl, rfl⟩

/-- C1 (amended): for every chunk batch written to an existing collection,
if the incremental write fails with any exception, `save_to_chroma` falls
back to a full recreation of the collection from the provided chunk set;
this fallback is destructive: every previously stored entry whose id is
not among the current batch's enriched `doc_id`s is silently dropped. -/
theorem c1_fallback_recreates_from_batch (store : ChromaStore) (docs : List Doc)
    (documentName documentType batchId now embModelName : String)
    (hex : collection_exists store = true) (hdocs : docs ≠ []) :
    (save_to_chroma store docs documentName documentType batchId now embModelName true
      = .ok (chroma_from_documents
          (enrich_metadata batchId documentName documentType now embModelName docs))) ∧
    (∀ st, save_to_chroma store docs documentName documentType batchId now embModelName true
        = .ok st →
      ∀ oldId ∈ store.ids,
        oldId ∉ (enrich_metadata batchId documentName documentType now embModelName docs).map
            (fun d => d.metadata.docId.getD "") →
          oldId ∉ st.ids) := by
  have h1 : save_to_chroma store docs documentName documentType batchId now embModelName true
      = .ok (chroma_from_documents
          (enrich_metadata batchId documentName documentType now embModelName docs)) := by
    simp [save_to_chroma, hdocs, hex]
  refine ⟨h1, ?_⟩
  intro st hst oldId _hold hnot
  rw [h1] at hst
  injection hst with hst
  subst hst
  simpa [ChromaStore.ids, chroma_from_documents, List.map_map, Function.comp] using hnot

/-- A one-entry existing collection used by the C1 witness. -/
def storeC1w : ChromaStore :=
  { entries := [("id0", { pageContent := "viejo" })] }

/-- Witness for C1 (amended) at a concrete input. -/
theorem c1_fallback_recreates_from_batch_witness :
    save_to_chroma storeC1w [newChunkC1] "" "" "b1" "t1" "mini" true
      = .ok (chroma_from_documents (enrich_metadata "b1" "" "" "t1" "mini" [newChunkC1])) :=
  (c1_fallback_recreates_from_batch storeC1w [newChunkC1] "" "" "b1" "t1" "mini"
    (by decide) (by decide)).1

/-! ### Claim C2 -/

/-- The chunk of a document that is ingested twice. -/
def chunkC2 : Doc :=
  { pageContent := "mismo contenido",
    metadata := { source := some "a.txt", documentId := some "D" } }

/-- C2 fails on the code (code bug): saving the same chunk a second time
doubles the entry count instead of leaving it unchanged.  The duplicate
filter compares existing ids with `doc_id = "doc_" + batch_id + "_" + i`,
but `batch_id` is a fresh `uuid.uuid4()` on every call (modelled by the
distinct batch ids `b1` and `b2`), so no identifier ever matches and
every chunk is re-added under a new id. -/
theorem c2_reingest_duplicates_entries :
    ((save_to_chroma {} [chunkC2] "" "" "b1" "t1" "mini" false).map
        ChromaStore.count = .ok 1) ∧
    (((save_to_chroma {} [chunkC2] "" "" "b1" "t1" "mini" false).bind
        (fun s1 => save_to_chroma s1 [chunkC2] "" "" "b2" "t2" "mini" false)).map
        ChromaStore.count = .ok 2) ∧
    (((save_to_chroma {} [chunkC2] "" "" "b1" "t1" "mini" false).bind
        (fun s1 => save_to_chroma s1 [chunkC2] "" "" "b2" "t2" "mini" false)).map
        ChromaStore.ids = .ok ["doc_b1_0", "doc_b2_0"]) :=
  ⟨rfl, rfl, rfl⟩

/-! ### Claim C9 -/

/-- The numbering property claimed by C9: every stored chunk's
`chunk_number` is its 1-based position among the chunks sharing its
`document_id`, and its `total_chunks` is the number of chunks of that
same `document_id`. -/
def per_document_numbering (docs : List Doc) : Bool :=
  (List.range docs.length).all fun i =>
    match docs[i]? with
    | none => true
    | some d =>
        (d.metadata.chunkNumber == some (((docs.take (i + 1)).filter
            (fun x => x.metadata.documentId == d.metadata.documentId)).length)) &&
        (d.metadata.totalChunks == some ((docs.filter
            (fun x => x.metadata.documentId == d.metadata.documentId)).length))

/-- First chunk of parent document A. -/
def chunkA1 : Doc := { pageContent := "A primero", metadata := { documentId := some "A" } }

/-- Second chunk of parent document A. -/
def chunkA2 : Doc := { pageContent := "A segundo", metadata := { documentId := some "A" } }

/-- Only chunk of parent document B. -/
def chunkB1 : Doc := { pageContent := "B unico", metadata := { documentId := some "B" } }

/-- C9 fails on the code: writing one batch holding two chunks of document
A and one chunk of document B numbers the chunks 1, 2, 3 across the whole
batch and stamps `total_chunks = 3` on all of them, so the B chunk gets
`chunk_number = 3` (its position within B is 1) and `total_chunks = 3`
(B has a single chunk). -/
theorem c9_counterexample_batch_wide_numbering :
    (save_to_chroma {} [chunkA1, chunkA2, chunkB1] "" "" "b" "t" "mini" false).map
      (fun st => per_document_numbering (st.entries.map Prod.snd)) = .ok false :=
  rfl

/-- The chunk numbers produced by the enrichment loop starting at
position `i` are `i+1, i+2, ...`. -/
theorem enrich_from_chunkNumbers (batchId dn dt now em : String) (total : Nat) :
    ∀ (l : List Doc) (i : Nat),
      (enrich_from batchId dn dt now em total i l).map (fun d => d.metadata.chunkNumber)
        = (List.range' (i + 1) l.length).map some := by
  intro l
  induction l with
  | nil => intro i; simp [enrich_from]
  | cons d ds ih =>
      intro i
      simp only [enrich_from, List.map_cons, List.length_cons, List.range', List.cons.injEq]
      exact ⟨rfl, ih (i + 1)⟩

/-- Every document of the enrichment loop is stamped with
`total_chunks = total`. -/
theorem enrich_from_totalChunks (batchId dn dt now em : String) (total : Nat) :
    ∀ (l : List Doc) (i : Nat),
      (enrich_from batchId dn dt now em total i l).all
        (fun d => d.metadata.totalChunks == some total) = true := by
  intro l
  induction l with
  | nil => intro i; simp [enrich_from]
  | cons d ds ih =>
      intro i
      simp only [enrich_from, List.all_cons, Bool.and_eq_true]
      exact ⟨by simp [enrich_one], ih (i + 1)⟩

/-- C9 (amended): `save_to_chroma` renumbers each batch as a whole: the
stored chunk numbers are `1, ..., n` in batch order (`n` the batch size)
and every chunk's `total_chunks` equals the batch size, not the parent
document's chunk count.  Chunk numbers are therefore unique within the
batch, and in particular within every `document_id`. -/
theorem c9_batch_numbering (batchId dn dt now em : String) (docs : List Doc) :
    ((enrich_metadata batchId dn dt now em docs).map (fun d => d.metadata.chunkNumber)
        = (List.range' 1 docs.length).map some) ∧
    ((enrich_metadata batchId dn dt now em docs).all
        (fun d => d.metadata.totalChunks == some docs.length) = true) ∧
    (∀ documentId : Option String,
      (((enrich_metadata batchId dn dt now em docs).filter
          (fun d => d.metadata.documentId == documentId)).map
        (fun d => d.metadata.chunkNumber)).Nodup) := by
  have h1 : (enrich_metadata batchId dn dt now em docs).map (fun d => d.metadata.chunkNumber)
      = (List.range' 1 docs.length).map some := by
    simpa [enrich_metadata] using enrich_from_chunkNumbers batchId dn dt now em docs.length docs 0
  refine ⟨h1, enrich_from_totalChunks batchId dn dt now em docs.length docs 0, ?_⟩
  intro documentId
  have hsub : (((enrich_metadata batchId dn dt now em docs).filter
      (fun d => d.metadata.documentId == documentId)).map
        (fun d => d.metadata.chunkNumber)).Sublist
      ((enrich_metadata batchId dn dt now em docs).map (fun d => d.metadata.chunkNumber)) :=
    (List.filter_sublist _).map _
  refine hsub.nodup ?_
  rw [h1]
  exact (List.nodup_range' 1 docs.length).map (Option.some_injective _)

/-! ## src/rag.py: hybrid retrieval

The Chroma vector search and the BM25 ranking function are external
capabilities; they enter as function parameters.  `vecSearch q` is the
raw ranked result of `similarity_search_with_relevance_scores` (document,
relevance score) before any thresholding; `bm25Rank texts q` is the BM25
ranking of the corpus `texts` for query `q`.  `BM25Retriever.from_texts`
builds its documents from the bare corpus strings, so lexical results
carry empty metadata. -/

/-- Configuration of a `BM25Retriever`: the corpus it was built from and
its `k`. -/
structure BM25Config where
  texts : List String
  k : Nat
  deriving Repr, DecidableEq

/-- The retriever configurations `_setup_retriever` (src/rag.py:156-188)
can produce: the `similarity_score_threshold` vector retriever, the plain
vector retriever of the exception fallback (src/rag.py:188), and the
`EnsembleRetriever` over the vector retriever and BM25. -/
inductive Retriever where
  | vectorThreshold (k : Nat) (scoreThreshold : ℚ)
  | vectorPlain (k : Nat)
  | ensemble (vec : Retriever) (bm25 : BM25Config) (wVec wLex : ℚ)
  deriving Repr, DecidableEq

/-- Embeds `_setup_retriever` (src/rag.py:156-188): a vector retriever
with `k = 16` and `score_threshold = 0.3`; when the stored corpus is
non-empty it is combined with a BM25 retriever (`k = 16`) in an ensemble
weighted 0.6 / 0.4, otherwise it is returned alone. -/
def setup_retriever (docs : List String) : Retriever :=
  let vectorRet := Retriever.vectorThreshold 16 (3 / 10)
  if docs.isEmpty then vectorRet
  else .ensemble vectorRet { texts := docs, k := 16 } (6 / 10) (4 / 10)

/-- First-occurrence deduplication by page content, as langchain
`EnsembleRetriever` applies over the concatenated result lists. -/
def uniqueByContent (l : List Doc) : List Doc :=
  (l.foldl (fun (st : List Doc × List String) d =>
      if d.pageContent ∈ st.2 then st
      else (st.1 ++ [d], st.2 ++ [d.pageContent])) ([], [])).1

/-- Weighted reciprocal-rank-fusion score of a page content, as langchain
`EnsembleRetriever.weighted_reciprocal_rank`: each result list contributes
`weight / (rank + 60)` for every occurrence of the content, ranks counted
from 1. -/
def rrfScore (docLists : List (List Doc)) (weights : List ℚ) (content : String) : ℚ :=
  ((docLists.zip weights).map (fun lw =>
    ((lw.1.enum.filter (fun p => p.2.pageContent == content)).map
      (fun p => lw.2 / ((p.1 : ℚ) + 1 + 60))).sum)).sum

/-- Langchain `EnsembleRetriever.weighted_reciprocal_rank`: concatenate
the result lists, deduplicate by page content keeping first occurrences,
and stable-sort by descending fused score. -/
def weightedReciprocalRank (docLists : List (List Doc)) (weights : List ℚ) : List Doc :=
  (uniqueByContent docLists.flatten).mergeSort
    (fun a b => rrfScore docLists weights b.pageContent ≤ rrfScore docLists weights a.pageContent)

/-- Runs a retriever configuration against the external search
capabilities.  The `similarity_score_threshold` search keeps the top `k`
results whose relevance score is at least the threshold; the BM25 leg
turns the top `k` ranked corpus texts into documents with empty
metadata. -/
def runRetriever (vecSearch : String → List (Doc × ℚ))
    (bm25Rank : List String → String → List String) :
    Retriever → String → List Doc
  | .vectorThreshold k thr, q =>
      (((vecSearch q).take k).filter (fun p => thr ≤ p.2)).map Prod.fst
  | .vectorPlain k, q =>
      ((vecSearch q).take k).map Prod.fst
  | .ensemble vec bm25 wVec wLex, q =>
      weightedReciprocalRank
        [runRetriever vecSearch bm25Rank vec q,
         ((bm25Rank bm25.texts q).take bm25.k).map (fun t => { pageContent := t })]
        [wVec, wLex]

/-! ### Claim C8 -/

/-- C8: when the corpus of stored chunk texts is empty, `_setup_retriever`
returns exactly the vector retriever with `k = 16` (and threshold 0.3),
so the configured retriever's output equals vector-only search output for
every query and every behaviour of the external search capabilities. -/
theorem c8_empty_corpus_vector_only :
    (setup_retriever [] = Retriever.vectorThreshold 16 (3 / 10)) ∧
    (∀ (vecSearch : String → List (Doc × ℚ))
        (bm25Rank : List String → String → List String) (q : String),
      runRetriever vecSearch bm25Rank (setup_retriever []) q
        = runRetriever vecSearch bm25Rank (Retriever.vectorThreshold 16 (3 / 10)) q) :=
  ⟨rfl, fun _ _ _ => rfl⟩

/-! ### Claim C3 -/

/-- The stored chunk used by the C3 counterexample. -/
def hiddenChunk : Doc :=
  { pageContent := "joya oculta", metadata := { source := some "doc.txt" } }

/-- A raw vector search that returns `hiddenChunk` with relevance 0.1,
strictly below the 0.3 threshold. -/
def vecSearchC3 : String → List (Doc × ℚ) :=
  fun _ => [(hiddenChunk, 1 / 10)]

/-- A BM25 ranking that ranks the stored corpus text first. -/
def bm25RankC3 : List String → String → List String :=
  fun texts _ => texts

/-- C3 fails on the code: with the corpus `["joya oculta"]` the configured
retriever is the ensemble, the raw vector search returns the chunk with
relevance 0.1 < 0.3 (so the vector leg discards it), yet the chunk
appears in the Hybrid Retriever's output because the BM25 leg returns
it. -/
theorem c3_counterexample_bm25_resurfaces_below_threshold :
    (vecSearchC3 "consulta" = [(hiddenChunk, 1 / 10)]) ∧
    ((1 : ℚ) / 10 < 3 / 10) ∧
    ((runRetriever vecSearchC3 bm25RankC3 (setup_retriever ["joya oculta"]) "consulta").map
      (fun d => d.pageContent) = ["joya oculta"]) := by
  refine ⟨rfl, by norm_num, ?_⟩
  have hfil : List.filter (fun p => decide ((3 : ℚ) / 10 ≤ p.2))
      (List.take 16 (vecSearchC3 "consulta")) = [] := by
    norm_num [vecSearchC3, List.filter]
  simp [setup_retriever, runRetriever, hfil, weightedReciprocalRank, uniqueByContent,
    bm25RankC3]

/-- C3 (amended): a chunk whose every raw vector-search occurrence scores
strictly below the 0.3 threshold never appears in the output of the
`similarity_score_threshold` vector retriever (`k = 16`) that
`_setup_retriever` builds — below-threshold vector results are discarded
from the vector leg; such a chunk can still reach the ensemble output
through the BM25 leg. -/
theorem c3_vector_leg_discards_below_threshold
    (vecSearch : String → List (Doc × ℚ))
    (bm25Rank : List String → String → List String) (q : String) (d : Doc)
    (h : ∀ s : ℚ, (d, s) ∈ vecSearch q → s < 3 / 10) :
    d ∉ runRetriever vecSearch bm25Rank (Retriever.vectorThreshold 16 (3 / 10)) q := by
  intro hmem
  simp only [runRetriever, List.mem_map, List.mem_filter] at hmem
  obtain ⟨p, ⟨htake, hthr⟩, hfst⟩ := hmem
  have hp : p ∈ vecSearch q := (List.take_sublist 16 (vecSearch q)).mem htake
  have hlt : p.2 < 3 / 10 := by
    have := h p.2
    rw [← hfst] at this
    exact this hp
  rw [decide_eq_true_eq] at hthr
  exact absurd hthr (not_le.mpr hlt)

/-- Witness for C3 (amended) at a concrete input: a chunk scored 0.1 by
the raw vector search is not in the vector retriever's output. -/
theorem c3_vector_leg_discards_below_threshold_witness :
    hiddenChunk ∉ runRetriever vecSearchC3 bm25RankC3
      (Retriever.vectorThreshold 16 (3 / 10)) "consulta" :=
  c3_vector_leg_discards_below_threshold vecSearchC3 bm25RankC3 "consulta" hiddenChunk
    (by
      intro s hs
      simp only [vecSearchC3, List.mem_singleton, Prod.mk.injEq] at hs
      rw [hs.2]
      norm_num)

/-! ## src/rag.py: query expansion and question answering

The Ollama chat model is the external generation capability: a function
from prompt to `Except String String` (`Except.error` models a raised
exception, `Except.ok` the `response.content`).  The configured
retriever's `invoke` is likewise a function from query to
`Except String (List Doc)`.  Python `hash`, process-seeded, enters as the
parameter `pyHash`. -/

/-- The prompt template of `_generate_related_questions`
(src/rag.py:249-258) up to its question placeholder. -/
def expansionPromptPre : String :=
  "Basándote en la pregunta original, genera exactamente 2 preguntas adicionales relacionadas que podrían ayudar a encontrar información complementaria en los documentos.\n\n    Las preguntas adicionales deben:\n    - Abordar aspectos diferentes pero relacionados con la pregunta original\n    - Ser específicas y útiles para búsqueda de información\n    - Cubrir posibles contextos o enfoques alternativos del tema\n\n    Pregunta original: "

/-- The prompt template of `_generate_related_questions` after its
question placeholder. -/
def expansionPromptPost : String :=
  "\n\n    Responde ÚNICAMENTE con las 2 preguntas adicionales, una por línea, sin numeración ni explicaciones adicionales."

/-- The formatted query-expansion prompt, `prompt.format(question=...)`
(src/rag.py:266). -/
def expansionPrompt (question : String) : String :=
  expansionPromptPre ++ question ++ expansionPromptPost

/-- The QA prompt template of `_setup_qa_chain` (src/rag.py:193-218) up
to its context placeholder. -/
def qaPromptPre : String :=
  "Eres un asistente inteligente especializado en analizar y responder preguntas basándote en documentos que han sido cargados previamente.\n\n**Tu rol principal:**\n- Analizar la información disponible en los documentos cargados\n- Proporcionar respuestas precisas y útiles basadas en esa información\n- Ser honesto cuando no tengas información suficiente\n- Adaptar tu tono y nivel de detalle según la pregunta del usuario\n\n**Información disponible en los documentos:**\n"

/-- The QA prompt template between its context and question
placeholders. -/
def qaPromptMid : String :=
  "\n\n**Instrucciones para responder:**\n1. **Si encuentras información relevante**: Responde de manera clara y estructurada, citando los puntos clave\n2. **Si la información es parcial**: Proporciona lo que puedas y menciona qué información adicional sería útil\n3. **Si no hay información relevante**: Indica honestamente que no tienes datos sobre ese tema en los documentos cargados\n4. **Siempre**: Mantén un tono profesional pero amigable\n\n**Formato de respuesta preferido:**\n- Respuesta directa a la pregunta\n- Puntos clave organizados cuando sea necesario\n- Menciona limitaciones si las hay\n\n**Pregunta del usuario:**\n"

/-- The QA prompt template after its question placeholder. -/
def qaPromptPost : String :=
  "\n\n**Respuesta basada en los documentos:**"

/-- The formatted QA prompt, `prompt.format(context=..., question=...)`
(src/rag.py:347-350). -/
def qa_prompt_format (context question : String) : String :=
  qaPromptPre ++ context ++ qaPromptMid ++ question ++ qaPromptPost

/-- Python `line.startswith(c)` for a one-character needle. -/
def startsWithChar (s : String) (c : Char) : Bool :=
  match s.toList with
  | c0 :: _ => c0 == c
  | [] => false

/-- The substitution `re.sub(r'^\d+\.\s*', '', line)` (src/rag.py:277):
removes a leading run of digits followed by a dot and optional
whitespace; leaves the line unchanged when the pattern does not match. -/
def stripNumbering (s : String) : String :=
  match s.toList.takeWhile Char.isDigit, s.toList.dropWhile Char.isDigit with
  | _ :: _, '.' :: rest => String.mk (rest.dropWhile isPySpace)
  | _, _ => s

/-- The substitution `re.sub(r'^[•\-\*]\s*', '', clean_line)`
(src/rag.py:278): removes one leading bullet character and the
whitespace after it. -/
def stripBullet (s : String) : String :=
  match s.toList with
  | c :: rest =>
      if c == '•' || c == '-' || c == '*' then String.mk (rest.dropWhile isPySpace)
      else s
  | [] => s

/-- Both cleaning substitutions applied to a response line, in source
order. -/
def clean_line (s : String) : String :=
  stripBullet (stripNumbering s)

/-- One iteration of the response-processing loop of
`_generate_related_questions` (src/rag.py:271-280): strip the line, skip
empty lines and lines starting with a dash or asterisk, clean the rest
and keep it when non-empty. -/
def related_lines_step (acc : List String) (line : String) : List String :=
  let l := pyStrip line
  if l != "" && !(startsWithChar l '-') && !(startsWithChar l '*') then
    let cl := clean_line l
    if cl != "" then acc ++ [cl] else acc
  else acc

/-- The full response-processing loop of `_generate_related_questions`
over `response.content.strip().split('\n')`. -/
def parse_related_lines (content : String) : List String :=
  (splitChar '\n' (pyStrip content)).foldl related_lines_step []

/-- Embeds `_generate_related_questions` (src/rag.py:239-297): one
generation call with the expansion prompt; on success the original
question followed by at most two cleaned response lines, on any
exception the original question alone. -/
def generate_related_questions (llm : String → Except String String)
    (originalQuestion : String) : List String :=
  match llm (expansionPrompt originalQuestion) with
  | .ok content => [originalQuestion] ++ (parse_related_lines content).take 2
  | .error _ => [originalQuestion]

/-- The lines of the model response that the processing loop of
`_generate_related_questions` iterates over (empty when the call
raised). -/
def responseLines (llm : String → Except String String) (q : String) : List String :=
  match llm (expansionPrompt q) with
  | .ok content => splitChar '\n' (pyStrip content)
  | .error _ => []

/-- A source citation of `ask_question` (src/rag.py:369-373). -/
structure SourceDetail where
  source : String
  documentName : String
  chunkNumber : Nat
  deriving Repr, DecidableEq

/-- The `metadata` dictionary of an `ask_question` result; absent keys
are `none`. -/
structure AnswerMetadata where
  error : Option String := none
  totalSources : Option Nat := none
  sourceDetails : List SourceDetail := []
  collection : Option String := none
  totalChunksRetrieved : Option Nat := none
  questionsUsed : Option Nat := none
  deriving Repr, DecidableEq

/-- The dictionary returned by `ask_question`. -/
structure AskResult where
  answer : String
  sources : List String
  metadata : AnswerMetadata
  deriving Repr, DecidableEq

/-- The result of `ask_question` together with a trace of the external
calls it made: prompts sent to the generation model and queries sent to
the retriever (a listed call may itself have raised). -/
structure AskOutcome where
  result : AskResult
  llmCalls : List String
  retrieverCalls : List String
  deriving Repr, DecidableEq

/-- The external capabilities `ask_question` runs against. -/
structure RagEnv where
  collectionName : String := "document_collection"
  llm : String → Except String String
  retrieve : String → Except String (List Doc)

/-- The inner per-question accumulation loop of `ask_question`
(src/rag.py:331-336): append each retrieved document unless the Python
hash of its page content was already seen. -/
def add_relevant_docs (pyHash : String → Int) :
    List Doc × List Int → List Doc → List Doc × List Int
  | st, [] => st
  | (acc, seen), d :: rest =>
      if pyHash d.pageContent ∈ seen then
        add_relevant_docs pyHash (acc, seen) rest
      else
        add_relevant_docs pyHash (acc ++ [d], pyHash d.pageContent :: seen) rest

/-- The retrieval loop of `ask_question` (src/rag.py:325-339): invoke the
retriever once per expanded question, skipping questions whose retrieval
raises, and deduplicate across all results by content hash. -/
def collect_relevant_docs (env : RagEnv) (pyHash : String → Int)
    (questions : List String) : List Doc × List Int :=
  questions.foldl (fun st q =>
    match env.retrieve q with
    | .error _ => st
    | .ok docs => add_relevant_docs pyHash st docs) ([], [])

/-- One iteration of the source-extraction loop of `ask_question`
(src/rag.py:364-373): skip documents with an empty metadata dictionary,
collect each distinct source once in first-seen order. -/
def extract_sources_step (st : List String × List SourceDetail) (d : Doc) :
    List String × List SourceDetail :=
  if d.metadata = ChunkMetadata.emptyDict then st
  else
    let sourceName := d.metadata.source.getD "Desconocido"
    if sourceName ∈ st.1 then st
    else
      (st.1 ++ [sourceName],
       st.2 ++ [{ source := sourceName,
                  documentName := d.metadata.documentName.getD "Sin nombre",
                  chunkNumber := d.metadata.chunkNumber.getD 0 }])

/-- The full source-extraction loop of `ask_question`. -/
def extract_sources (docs : List Doc) : List String × List SourceDetail :=
  docs.foldl extract_sources_step ([], [])

/-- The expanded question list `ask_question` retrieves with
(src/rag.py:322). -/
def ask_all_questions (env : RagEnv) (question : String) : List String :=
  generate_related_questions env.llm question

/-- The deduplicated relevant documents of `ask_question`
(src/rag.py:325-341), used both for the context block and for the source
list. -/
def ask_relevant_docs (env : RagEnv) (pyHash : String → Int)
    (question : String) : List Doc :=
  (collect_relevant_docs env pyHash (ask_all_questions env question)).1

/-- The full generation prompt of `ask_question` (src/rag.py:344-350):
the QA template over the double-newline-joined context and the original
question. -/
def ask_full_prompt (env : RagEnv) (pyHash : String → Int)
    (question : String) : String :=
  qa_prompt_format
    (String.intercalate "\n\n"
      ((ask_relevant_docs env pyHash question).map (fun d => d.pageContent)))
    question

/-- The fixed clarification answer for blank questions
(src/rag.py:313). -/
def empty_question_answer : String :=
  "Por favor, hazme una pregunta específica sobre los documentos cargados."

/-- The fixed apologetic answer of the top-level exception handler
(src/rag.py:393). -/
def apology_answer : String :=
  "Disculpa, tuve un problema técnico procesando tu consulta. ¿Podrías reformular tu pregunta?"

/-- Embeds `ask_question` (src/rag.py:300-396).  The blank check
short-circuits before any external call; expansion failures are absorbed
inside `generate_related_questions`, per-question retrieval failures are
absorbed inside `collect_relevant_docs`, and the only exception reaching
the top-level handler in this flow is a failing final generation call. -/
def ask_question (env : RagEnv) (pyHash : String → Int) (question : String) : AskOutcome :=
  if pyStrip question = "" then
    { result := { answer := empty_question_answer, sources := [],
                  metadata := { error := some "Pregunta vacía" } },
      llmCalls := [], retrieverCalls := [] }
  else
    match env.llm (ask_full_prompt env pyHash question) with
    | .error e =>
        { result := { answer := apology_answer, sources := [],
                      metadata := { error := some e } },
          llmCalls := [expansionPrompt question, ask_full_prompt env pyHash question],
          retrieverCalls := ask_all_questions env question }
    | .ok content =>
        { result := { answer := content,
                      sources := (extract_sources (ask_relevant_docs env pyHash question)).1,
                      metadata :=
                        { totalSources :=
                            some (extract_sources (ask_relevant_docs env pyHash question)).1.length,
                          sourceDetails := (extract_sources (ask_relevant_docs env pyHash question)).2,
                          collection := some env.collectionName,
                          totalChunksRetrieved := some (ask_relevant_docs env pyHash question).length,
                          questionsUsed := some (ask_all_questions env question).length } },
          llmCalls := [expansionPrompt question, ask_full_prompt env pyHash question],
          retrieverCalls := ask_all_questions env question }

/-! ### Claim C4 -/

/-- C4: for every question that is empty or whitespace-only,
`ask_question` short-circuits: it returns the fixed clarification answer,
an empty source list and the explicit empty-question metadata flag
(`error = "Pregunta vacía"`), and makes no generation-model and no
retriever (hence no embedding) call at all. -/
theorem c4_blank_question_short_circuit (env : RagEnv) (pyHash : String → Int)
    (question : String) (h : question.toList.all isPySpace = true) :
    ask_question env pyHash question =
      { result := { answer := empty_question_answer, sources := [],
                    metadata := { error := some "Pregunta vacía" } },
        llmCalls := [], retrieverCalls := [] } := by
  have hdrop : question.toList.dropWhile isPySpace = [] := by
    rw [List.dropWhile_eq_nil_iff]
    exact fun x hx => List.all_eq_true.mp h x hx
  have hstrip : pyStrip question = "" := by
    unfold pyStrip
    rw [hdrop]
    rfl
  simp [ask_question, hstrip]

/-- An environment whose generation model and retriever record nothing of
interest, used by the C4 witness. -/
def ragEnvC4w : RagEnv :=
  { llm := fun _ => .ok "", retrieve := fun _ => .ok [] }

/-- Witness for C4 at the concrete three-space question. -/
theorem c4_blank_question_short_circuit_witness :
    ask_question ragEnvC4w (fun _ => 0) "   " =
      { result := { answer := empty_question_answer, sources := [],
                    metadata := { error := some "Pregunta vacía" } },
        llmCalls := [], retrieverCalls := [] } :=
  c4_blank_question_short_circuit ragEnvC4w (fun _ => 0) "   " (by decide)

/-! ### Claim C5 -/

/-- An environment whose generation model raises exactly on the expansion
prompt for `"hola"` and answers every other prompt. -/
def ragEnvC5 : RagEnv :=
  { llm := fun p => if p = expansionPrompt "hola" then .error "boom" else .ok "RESPUESTA",
    retrieve := fun _ => .ok [] }

/-- C5 fails on the code: an exception raised during query expansion is
absorbed inside `_generate_related_questions`, not converted at the top
level into the apologetic answer — `ask_question` proceeds and returns
the generated answer with no error field. -/
theorem c5_counterexample_expansion_failure_not_apologetic :
    (ragEnvC5.llm (expansionPrompt "hola") = .error "boom") ∧
    ((ask_question ragEnvC5 (fun _ => 0) "hola").result.answer = "RESPUESTA") ∧
    ((ask_question ragEnvC5 (fun _ => 0) "hola").result.metadata.error = none) ∧
    ("RESPUESTA" ≠ apology_answer) :=
  ⟨rfl, rfl, rfl, by decide⟩

/-- C5 (amended): for every non-blank question, an exception raised by
the final answer-generation call is caught at the top level and converted
into the fixed apologetic answer, empty sources, and a metadata error
field holding the exception's description; exceptions raised during query
expansion are instead caught locally and are non-fatal (the flow
continues with the original question alone).  The caller always receives
a result, never a raw exception. -/
theorem c5_generation_failure_handling (env : RagEnv) (pyHash : String → Int)
    (question : String) (e : String)
    (hq : ¬ pyStrip question = "")
    (hgen : env.llm (ask_full_prompt env pyHash question) = .error e) :
    ((ask_question env pyHash question).result.answer = apology_answer) ∧
    ((ask_question env pyHash question).result.sources = []) ∧
    ((ask_question env pyHash question).result.metadata.error = some e) ∧
    (∀ e2, env.llm (expansionPrompt question) = .error e2 →
      ask_all_questions env question = [question]) := by
  have hmain : (ask_question env pyHash question).result =
      { answer := apology_answer, sources := [], metadata := { error := some e } } := by
    unfold ask_question
    rw [if_neg hq, hgen]
  refine ⟨by rw [hmain], by rw [hmain], by rw [hmain], ?_⟩
  intro e2 h2
  unfold ask_all_questions generate_related_questions
  rw [h2]

/-- An environment whose generation model raises on every call, used by
the C5 witness. -/
def ragEnvC5w : RagEnv :=
  { llm := fun _ => .error "falla total", retrieve := fun _ => .ok [] }

/-- Witness for C5 (amended): a generation provider that throws on every
call still yields the fixed apology and the error description. -/
theorem c5_generation_failure_handling_witness :
    ((ask_question ragEnvC5w (fun _ => 0) "hola").result.answer = apology_answer) ∧
    ((ask_question ragEnvC5w (fun _ => 0) "hola").result.metadata.error
      = some "falla total") := by
  have h := c5_generation_failure_handling ragEnvC5w (fun _ => 0) "hola" "falla total"
    (by decide) rfl
  exact ⟨h.1, h.2.2.1⟩

/-! ### Claim C6 -/

/-- Every document accumulated by the dedup loop has its content hash in
the seen set, and every page content occurs at most once. -/
theorem add_relevant_docs_inv (pyHash : String → Int) :
    ∀ (ds : List Doc) (acc : List Doc) (seen : List Int),
      (∀ d ∈ acc, pyHash d.pageContent ∈ seen) →
      (∀ c, acc.countP (fun d => d.pageContent == c) ≤ 1) →
      (∀ d ∈ (add_relevant_docs pyHash (acc, seen) ds).1,
          pyHash d.pageContent ∈ (add_relevant_docs pyHash (acc, seen) ds).2) ∧
      (∀ c, ((add_relevant_docs pyHash (acc, seen) ds).1.countP
          (fun d => d.pageContent == c)) ≤ 1) := by
  intro ds
  induction ds with
  | nil => intro acc seen h1 h2; exact ⟨h1, h2⟩
  | cons d rest ih =>
      intro acc seen h1 h2
      by_cases hmem : pyHash d.pageContent ∈ seen
      · rw [show add_relevant_docs pyHash (acc, seen) (d :: rest)
            = add_relevant_docs pyHash (acc, seen) rest from by
          simp [add_relevant_docs, hmem]]
        exact ih acc seen h1 h2
      · rw [show add_relevant_docs pyHash (acc, seen) (d :: rest)
            = add_relevant_docs pyHash (acc ++ [d], pyHash d.pageContent :: seen) rest from by
          simp [add_relevant_docs, hmem]]
        apply ih
        · intro x hx
          rcases List.mem_append.mp hx with hx | hx
          · exact List.mem_cons_of_mem _ (h1 x hx)
          · rw [List.mem_singleton.mp hx]
            exact List.mem_cons_self _ _
        · intro c
          rw [List.countP_append]
          by_cases hc : d.pageContent == c
          · have hzero : acc.countP (fun x => x.pageContent == c) = 0 := by
              rw [List.countP_eq_zero]
              intro a ha hac
              apply hmem
              have hac' : a.pageContent = c := by simpa using hac
              have hd : d.pageContent = c := by simpa using hc
              rw [hd, ← hac']
              exact h1 a ha
            simp [hzero, List.countP_cons, hc]
          · have hone : List.countP (fun x => x.pageContent == c) [d] = 0 := by
              simp [List.countP_cons, hc]
            rw [hone]
            simpa using h2 c

/-- The invariant carried through the per-question retrieval loop. -/
theorem collect_relevant_docs_inv (env : RagEnv) (pyHash : String → Int) :
    ∀ (questions : List String) (st : List Doc × List Int),
      (∀ d ∈ st.1, pyHash d.pageContent ∈ st.2) →
      (∀ c, st.1.countP (fun d => d.pageContent == c) ≤ 1) →
      (∀ d ∈ (questions.foldl (fun st q =>
          match env.retrieve q with
          | .error _ => st
          | .ok docs => add_relevant_docs pyHash st docs) st).1,
        pyHash d.pageContent ∈ (questions.foldl (fun st q =>
          match env.retrieve q with
          | .error _ => st
          | .ok docs => add_relevant_docs pyHash st docs) st).2) ∧
      (∀ c, ((questions.foldl (fun st q =>
          match env.retrieve q with
          | .error _ => st
          | .ok docs => add_relevant_docs pyHash st docs) st).1.countP
            (fun d => d.pageContent == c)) ≤ 1) := by
  intro questions
  induction questions with
  | nil => intro st h1 h2; exact ⟨h1, h2⟩
  | cons q rest ih =>
      intro st h1 h2
      rw [List.foldl_cons]
      cases hq : env.retrieve q with
      | error e =>
          simp only [hq]
          exact ih st h1 h2
      | ok docs =>
          simp only [hq]
          obtain ⟨g1, g2⟩ := add_relevant_docs_inv pyHash docs st.1 st.2 h1 h2
          exact ih (add_relevant_docs pyHash (st.1, st.2) docs) g1 g2

/-- C6: for every question and every Python hash seeding, each distinct
page content occurs at most once in the deduplicated relevant-document
list that `ask_question` uses both for the context block and for the
source list — the dedup key is a function of the chunk content alone, so
chunks with equal content and different metadata collapse. -/
theorem c6_dedup_by_content_hash (env : RagEnv) (pyHash : String → Int)
    (question : String) (c : String) :
    ((ask_relevant_docs env pyHash question).countP
      (fun d => d.pageContent == c)) ≤ 1 := by
  have h := (collect_relevant_docs_inv env pyHash
    (ask_all_questions env question) ([], [])
    (by intro d hd; cases hd) (by intro c0; simp)).2 c
  simpa [ask_relevant_docs, collect_relevant_docs] using h

/-! ### Claim C7 -/

/-- Every entry produced by the response-processing loop is either
carried over from the accumulator or is a cleaned line of the input. -/
theorem foldl_related_lines_mem :
    ∀ (lines : List String) (acc : List String) (x : String),
      x ∈ lines.foldl related_lines_step acc →
      x ∈ acc ∨ ∃ line ∈ lines, x = clean_line (pyStrip line) := by
  intro lines
  induction lines with
  | nil => intro acc x hx; exact Or.inl hx
  | cons l ls ih =>
      intro acc x hx
      rw [List.foldl_cons] at hx
      rcases ih (related_lines_step acc l) x hx with h | ⟨line, hline, hx'⟩
      · simp only [related_lines_step] at h
        split_ifs at h with h1 h2
        · rcases List.mem_append.mp h with h3 | h3
          · exact Or.inl h3
          · exact Or.inr ⟨l, List.mem_cons_self l ls, by simpa using h3⟩
        · exact Or.inl h
        · exact Or.inl h
      · exact Or.inr ⟨line, List.mem_cons_of_mem l hline, hx'⟩

/-- C7: for every question, query expansion returns the original question
first, followed by at most 2 additional entries, each a response line
with leading numbering and list markers stripped; and when the model call
raises, the result is exactly the singleton original question — expansion
failure is non-fatal. -/
theorem c7_expansion_contract (llm : String → Except String String) (q : String) :
    (∃ extras, generate_related_questions llm q = q :: extras ∧ extras.length ≤ 2 ∧
      ∀ x ∈ extras, ∃ line ∈ responseLines llm q, x = clean_line (pyStrip line)) ∧
    (∀ e, llm (expansionPrompt q) = .error e →
      generate_related_questions llm q = [q]) := by
  cases h : llm (expansionPrompt q) with
  | error e =>
      refine ⟨⟨[], ?_, ?_, ?_⟩, ?_⟩
      · simp [generate_related_questions, h]
      · simp
      · intro x hx; cases hx
      · intro e2 _; simp [generate_related_questions, h]
  | ok content =>
      refine ⟨⟨(parse_related_lines content).take 2, ?_, ?_, ?_⟩, ?_⟩
      · simp [generate_related_questions, h]
      · rw [List.length_take]
        exact Nat.min_le_left 2 _
      · intro x hx
        have hx' : x ∈ parse_related_lines content := (List.take_sublist 2 _).mem hx
        rcases foldl_related_lines_mem (splitChar '\n' (pyStrip content)) [] x hx' with
          h0 | ⟨line, hline, hxeq⟩
        · cases h0
        · refine ⟨line, ?_, hxeq⟩
          simp [responseLines, h, hline]
      · intro e2 h2
        exact Except.noConfusion h2

/-- A generation model that raises on every call, used by the C7
witness. -/
def llmC7err : String → Except String String :=
  fun _ => .error "sin conexion"

/-- Witness for C7 at a concrete failing model: expansion returns exactly
the original question. -/
theorem c7_expansion_contract_witness :
    generate_related_questions llmC7err "hola" = ["hola"] :=
  (c7_expansion_contract llmC7err "hola").2 "sin conexion" rfl

end DemoSinesis
